import Mathlib

/-!
Verification of the session, dispatch and monitoring layer of the
tv-automation-quantel-gateway-client repository (src/quantelGateway.ts),
as a shallow embedding: decoded HTTP bodies become a JavaScript value
model, the mutable fields of the QuantelGateway class become an explicit
session-state record threaded through the operations, the network is an
oracle parameter, and asynchronous monitor behaviour is an explicit event
trace.
-/

namespace QuantelGatewayClient

/-- Model of a decoded JSON/JavaScript value, as `got` hands response
bodies to quantelGateway.ts. -/
inductive JsValue where
  | null
  | undefined
  | bool (b : Bool)
  | num (n : Int)
  | str (s : String)
  | arr (elems : List JsValue)
  | obj (fields : List (String × JsValue))

/-- First binding of a key among the fields of an object literal. -/
def lookupField : List (String × JsValue) → String → Option JsValue
  | [], _ => none
  | (k, v) :: rest, key => if k == key then some v else lookupField rest key

/-- JavaScript property access `v[key]`: `undefined` when the key is absent
or the value is not an object. -/
def getField : JsValue → String → JsValue
  | .obj fs, key => (lookupField fs key).getD .undefined
  | _, _ => .undefined

/-- `Object.prototype.hasOwnProperty.call(v, key)`. -/
def hasOwn : JsValue → String → Bool
  | .obj fs, key => (lookupField fs key).isSome
  | _, _ => false

/-- JavaScript truthiness, `!!v`. -/
def truthy : JsValue → Bool
  | .null => false
  | .undefined => false
  | .bool b => b
  | .num n => n != 0
  | .str s => s != ""
  | .arr _ => true
  | .obj _ => true

/-- JavaScript `typeof v` (note `typeof null` is `"object"`). -/
def typeofStr : JsValue → String
  | .null => "object"
  | .undefined => "undefined"
  | .bool _ => "boolean"
  | .num _ => "number"
  | .str _ => "string"
  | .arr _ => "object"
  | .obj _ => "object"

/-- Strict equality of a value against a number literal, `v === m`. -/
def jsEqNum (v : JsValue) (m : Int) : Bool :=
  match v with
  | .num n => n == m
  | _ => false

/-- The error classifier `_isAnErrorResponse` (quantelGateway.ts, lines
706-720): the response is truthy, of object type, has an own `status`
property whose value is truthy and a number, has string `message` and
`stack` properties, and `status !== 200`. -/
def isAnErrorResponse (response : JsValue) : Bool :=
  truthy response &&
  typeofStr response == "object" &&
  hasOwn response "status" &&
  truthy (getField response "status") &&
  typeofStr (getField response "status") == "number" &&
  typeofStr (getField response "message") == "string" &&
  typeofStr (getField response "stack") == "string" &&
  !(jsEqNum (getField response "status") 200)

/-- Is `needle` a contiguous substring of `hay`? This models a JavaScript
`hay.match(pattern)` test for a pattern consisting of plain characters
only. -/
def strContainsSub (hay needle : String) : Bool :=
  hay.data.tails.any fun tail => needle.data.isPrefixOf tail

/-- ASCII lower-casing of one character; the case-insensitive regular
expression in sendRaw meets ASCII text only. -/
def lowerChar (c : Char) : Char :=
  if 'A' ≤ c && c ≤ 'Z' then Char.ofNat (c.toNat + 32) else c

/-- ASCII lower-casing of a string. -/
def lowerStr (s : String) : String :=
  ⟨s.data.map lowerChar⟩

/-- Case-insensitive substring test, modelling a `/i`-flagged regular
expression consisting of plain characters. -/
def strContainsSubCI (hay needle : String) : Bool :=
  strContainsSub (lowerStr hay) (lowerStr needle)

/-- One element of a regular-expression pattern made of plain characters
and the metacharacter `.`, which matches any single character. -/
inductive PatChar where
  | lit (c : Char)
  | anyChar

/-- Does the pattern match a prefix of the character list? -/
def patMatchesAt : List PatChar → List Char → Bool
  | [], _ => true
  | _ :: _, [] => false
  | .lit c :: ps, x :: xs => x == c && patMatchesAt ps xs
  | .anyChar :: ps, _ :: xs => patMatchesAt ps xs

/-- Does the pattern match anywhere in the string (an unanchored
regular-expression search)? -/
def patOccurs (pat : List PatChar) (s : String) : Bool :=
  s.data.tails.any fun tail => patMatchesAt pat tail

/-- The argument of `(e.message || '').match('Not found. Request')` as
JavaScript reads it: a regular expression whose `.` matches any single
character. -/
def notFoundPattern : List PatChar :=
  "Not found".data.map PatChar.lit ++ [PatChar.anyChar] ++ " Request".data.map PatChar.lit

/-- `_isNotFoundAThing` (quantelGateway.ts, lines 722-727): the message
mentions 404, and the generic routing text does not match. -/
def isNotFoundAThing (message : String) : Bool :=
  if strContainsSub message "404" then !(patOccurs notFoundPattern message)
  else false

/-- The catch wrapper shared by `getPort` and `getClip`: a thrown error is
degraded to `null` exactly when `_isNotFoundAThing` accepts its message,
and re-thrown otherwise. The underlying dispatch outcome is the
argument. -/
def getPort {α : Type} (response : Except String α) : Except String (Option α) :=
  match response with
  | .ok v => .ok (some v)
  | .error e => if isNotFoundAThing e then .ok none else .error e

/-- Observable effects of one `sendRaw` call: how many raw HTTP requests
were issued and how many ISA reconnects were requested. -/
structure DispatchCounts where
  requests : Nat
  reconnects : Nat
  deriving DecidableEq

/-- One call to `sendRawInner`: it issues the next HTTP request; the body
the network answers to the k-th request of the session is `oracle k`. -/
def sendRawInner (oracle : Nat → JsValue) (s : DispatchCounts) : JsValue × DispatchCounts :=
  (oracle s.requests, { s with requests := s.requests + 1 })

/-- One call to `reconnectToISA`: it posts a connect request for the
configured ISA endpoints to the gateway. -/
def reconnectToISA (s : DispatchCounts) : DispatchCounts :=
  { s with reconnects := s.reconnects + 1 }

/-- `responseBody.message + ''`: the message coerced to a string; whenever
this is consulted the classifier has already established the message is a
string. -/
def jsMessageText (body : JsValue) : String :=
  match getField body "message" with
  | .str s => s
  | _ => ""

/-- The trigger of the one-shot recovery in `sendRaw` (quantelGateway.ts,
lines 623-627): a classified gateway error whose status `=== 502` and
whose message matches `/first provide a quantel isa/i`. -/
def shouldReconnectToISA (body : JsValue) : Bool :=
  isAnErrorResponse body &&
  jsEqNum (getField body "status") 502 &&
  strContainsSubCI (jsMessageText body) "first provide a quantel isa"

/-- `sendRaw` (quantelGateway.ts, lines 615-634): issue the request; on
the 502 "first provide a quantel isa" signature, reconnect to the ISA and
issue the request again through `sendRawInner`, returning that second body
unconditionally; otherwise return the first body. -/
def sendRaw (oracle : Nat → JsValue) (s : DispatchCounts) : JsValue × DispatchCounts :=
  let r := sendRawInner oracle s
  if shouldReconnectToISA r.1 then
    let s2 := reconnectToISA r.2
    sendRawInner oracle s2
  else r

/-- `Q.ServerInfo` (quantelTypes.ts): the resolved description of an SQ
server. `chanPorts` is channel-indexed and sparse, so a missing entry is
`undefined`. -/
structure ServerInfo where
  ident : Int
  down : Bool
  name : Option String := none
  numChannels : Option Nat := none
  pools : Option (List Int) := none
  portNames : Option (List String) := none
  chanPorts : Option (List (Option String)) := none
  deriving DecidableEq

/-- The mutable private fields of the QuantelGateway class that the
verified operations read and write. A fresh instance starts with the
status message "Initializing...". -/
structure SessionState where
  gatewayUrl : Option String := none
  ISAUrls : List String := []
  zoneId : Option String := none
  serverId : Option Int := none
  initialized : Bool := false
  statusMessage : Option String := some "Initializing..."
  cachedServer : Option ServerInfo := none
  monitorPorts : List (String × List Nat) := []
  connected : Bool := false
  deriving DecidableEq

/-- JavaScript truthiness of an optional number: `undefined` and `0` are
falsy. -/
def numTruthy : Option Int → Bool
  | some n => n != 0
  | none => false

/-- JavaScript truthiness of an optional string: `undefined` and the empty
string are falsy. -/
def strTruthy : Option String → Bool
  | some s => s != ""
  | none => false

/-- `${this._serverId}` inside a template literal. -/
def serverIdText : Option Int → String
  | some n => toString n
  | none => "undefined"

/-- `${this._zoneId}` inside a template literal. -/
def zoneIdText : Option String → String
  | some z => z
  | none => "undefined"

/-- `getServer(disableCache)` (quantelGateway.ts, lines 253-271): return
the possibly cached server record. The zone server listing the gateway
would answer is passed as `listing`; `Except.error` there models a thrown
transport or gateway error. The returned state carries the cache
mutations performed before any throw. -/
def getServer (disableCache : Bool) (listing : Except String (List ServerInfo))
    (st : SessionState) : SessionState × Except String (Option ServerInfo) :=
  let st1 :=
    if disableCache || (st.cachedServer.map ServerInfo.ident != st.serverId) then
      { st with cachedServer := none }
    else st
  match st1.cachedServer with
  | some cached => (st1, .ok (some cached))
  | none =>
    if !numTruthy st1.serverId then
      (st1, .error "QuantelGatewayClient.serverId not set")
    else
      match listing with
      | .error e => (st1, .error e)
      | .ok servers =>
        let server := servers.find? fun s => some s.ident == st1.serverId
        ({ st1 with cachedServer := server }, .ok server)

/-- `setServerId(serverId)` (quantelGateway.ts, lines 222-231): store the
identifier; when it is truthy, force a cache refresh and throw when no
matching record exists on the ISA. -/
def setServerId (serverId : Option Int) (listing : Except String (List ServerInfo))
    (st : SessionState) : SessionState × Except String Unit :=
  let st1 := { st with serverId := serverId }
  if numTruthy st1.serverId then
    match getServer true listing st1 with
    | (st2, .error e) => (st2, .error e)
    | (st2, .ok none) =>
      let sid := serverIdText st2.serverId
      (st2, .error s!"Server {sid} not found on ISA!")
    | (st2, .ok (some _)) => (st2, .ok ())
  else (st1, .ok ())

/-- `sendBase` (quantelGateway.ts, lines 601-613): fail fast when the
session is not initialized; otherwise dispatch. The resource path handed
to the raw HTTP layer is returned in place of the network exchange. -/
def sendBase (st : SessionState) (resource : String) : Except String String :=
  if !st.initialized then .error "Quantel not initialized yet"
  else .ok resource

/-- `sendZone`: prefix the configured zone onto the resource path. -/
def sendZone (st : SessionState) (resource : String) : Except String String :=
  let zone := zoneIdText st.zoneId
  sendBase st s!"{zone}/{resource}"

/-- `sendServer` (quantelGateway.ts, lines 576-590): fail fast when the
server identifier is not truthy; otherwise prefix `server/{serverId}`. -/
def sendServer (st : SessionState) (resource : String) : Except String String :=
  if !numTruthy st.serverId then .error "QuantelClient.serverId not set"
  else
    let sid := serverIdText st.serverId
    sendZone st s!"server/{sid}/{resource}"

/-- The "no room to assign port" conflict message text. -/
def noRoomMessage (monitorPortId : String) : String :=
  s!"Not able to assign port \"{monitorPortId}\", due to all ports being already used"

/-- The "channel already assigned" conflict message text. -/
def channelConflictMessage (monitorPortId : String) (channel : Nat) (owner : String) : String :=
  s!"Not able to assign channel to port \"{monitorPortId}\", the channel {channel} is already assigned to another port \"{owner}\"!"

/-- The conflict messages one monitored port contributes on a poll tick:
the body of the loop over `Object.entries(this._monitorPorts)` inside the
monitor (quantelGateway.ts, lines 134-161). The channel check runs in the
else branch of the no-room check. -/
def monitorPortErrors (server : ServerInfo) (monitorPortId : String)
    (channels : List Nat) : List String :=
  let portNames := server.portNames.getD []
  let portExists := portNames.find? fun portName => portName == monitorPortId
  let realPortNames := portNames.filter fun portName => portName != ""
  if !(strTruthy portExists) && (realPortNames.length == server.numChannels.getD 0) then
    [noRoomMessage monitorPortId]
  else
    channels.filterMap fun monitorChannel =>
      match ((server.chanPorts.getD []).get? monitorChannel).join with
      | some channelPort =>
        if channelPort != "" && channelPort != monitorPortId then
          some (channelConflictMessage monitorPortId monitorChannel channelPort)
        else none
      | none => none

/-- All conflict messages accumulated over the declared monitored ports. -/
def serverErrorsOf (server : ServerInfo) (monitorPorts : List (String × List Nat)) :
    List String :=
  monitorPorts.flatMap fun mp => monitorPortErrors server mp.1 mp.2

/-- One evaluation of the monitor function `getServerStatus`
(quantelGateway.ts, lines 119-170): the updated session state (the
`_connected` flag and the cache mutations of the forced refresh) together
with the computed diagnostic, `none` meaning all good. An `Except.error`
listing models an exception, which the surrounding try/catch converts
into a diagnostic. -/
def getServerStatus (listing : Except String (List ServerInfo))
    (st : SessionState) : SessionState × Option String :=
  let st0 := { st with connected := false }
  if !(strTruthy st0.gatewayUrl) then (st0, some "Gateway URL not set")
  else if !(numTruthy st0.serverId) then
    (st0, some "QuantelGatewayClient.serverId not set")
  else
    let st1 := (getServer true listing st0).1
    match (getServer true listing st0).2 with
    | .error e => (st1, some s!"Error when monitoring status: {e}")
    | .ok none =>
      let sid := serverIdText st1.serverId
      (st1, some s!"Server {sid} not found on ISA")
    | .ok (some server) =>
      if server.down then
        let sid := toString server.ident
        (st1, some s!"Server {sid} is down")
      else
        let st2 := { st1 with connected := true }
        let serverErrors := serverErrorsOf server st2.monitorPorts
        if serverErrors.length != 0 then
          (st2, some (String.intercalate ", " serverErrors))
        else if !st2.initialized then (st2, some "Not initialized")
        else (st2, none)

/-- The change detection of the monitor: compare the computed diagnostic
with the stored one; on change, store it and report that the callback
fires. -/
def applyStatusChange (stored computed : Option String) : Option String × Bool :=
  if computed != stored then (computed, true) else (stored, false)

/-- One full monitor tick, `checkServerStatus` together with its `.then`
continuation (quantelGateway.ts, lines 171-180): evaluate the status and,
exactly when it differs from the stored one, store it and invoke the
callback with `(statusMessage === null, statusMessage)`. The second
component is `none` when the callback is not invoked. -/
def checkServerStatus (listing : Except String (List ServerInfo))
    (st : SessionState) : SessionState × Option (Bool × Option String) :=
  let r := getServerStatus listing st
  let statusMessage := r.2
  if statusMessage != r.1.statusMessage then
    ({ r.1 with statusMessage := statusMessage },
      some (statusMessage.isNone, statusMessage))
  else (r.1, none)

/-- The asynchronous shape of the monitor, abstracted for the disposal
claim: whether the interval timer installed by `monitorServerStatus` is
still set, the stored diagnostic, and how many poll ticks have started
but not yet resolved their promise. -/
structure MonitorState where
  intervalActive : Bool
  stored : Option String
  pending : Nat
  deriving DecidableEq

/-- Events of the event loop the monitor lives on: the interval firing
(which starts a tick), the promise of a started tick resolving with its
computed diagnostic, and `dispose()` (quantelGateway.ts, lines 104-108),
which only clears the interval. -/
inductive MonitorEvent where
  | tickFire
  | resolve (computed : Option String)
  | disposeEv
  deriving DecidableEq

/-- One event-loop step; the boolean reports whether the status-change
callback was invoked during the step. -/
def monitorStep (s : MonitorState) : MonitorEvent → MonitorState × Bool
  | .tickFire =>
    if s.intervalActive then ({ s with pending := s.pending + 1 }, false)
    else (s, false)
  | .resolve computed =>
    match s.pending with
    | 0 => (s, false)
    | p + 1 =>
      let r := applyStatusChange s.stored computed
      ({ s with pending := p, stored := r.1 }, r.2)
  | .disposeEv => ({ s with intervalActive := false }, false)

/-- Does the callback fire at any step of the trace? -/
def anyCallback (s : MonitorState) : List MonitorEvent → Bool
  | [] => false
  | e :: es =>
    let r := monitorStep s e
    r.2 || anyCallback r.1 es

/-- Does the callback fire at a step strictly after some `dispose()` in
the trace? -/
def callbackAfterDispose (s : MonitorState) : List MonitorEvent → Bool
  | [] => false
  | .disposeEv :: es =>
    let r := monitorStep s .disposeEv
    anyCallback r.1 es || callbackAfterDispose r.1 es
  | e :: es =>
    let r := monitorStep s e
    callbackAfterDispose r.1 es

/-- How many times the callback fires along the trace. -/
def countCallbacks (s : MonitorState) : List MonitorEvent → Nat
  | [] => 0
  | e :: es =>
    let r := monitorStep s e
    (if r.2 then 1 else 0) + countCallbacks r.1 es

/-- The monitor state right after `monitorServerStatus` installs the
interval on a fresh session, whose stored message is "Initializing...". -/
def monitorStart : MonitorState :=
  { intervalActive := true, stored := some "Initializing...", pending := 0 }

/-- The gateway-error shape exactly as the specification words it: an
object with a numeric `status` field not equal to 200, a string `message`
field and a string `stack` field. -/
def specErrorShape (v : JsValue) : Bool :=
  (match v with | .obj _ => true | _ => false) &&
  (match getField v "status" with | .num n => n != 200 | _ => false) &&
  (match getField v "message" with | .str _ => true | _ => false) &&
  (match getField v "stack" with | .str _ => true | _ => false)

/-- The corrected gateway-error shape: as `specErrorShape`, but the
numeric status must also be nonzero, because the code tests `test.status`
for truthiness. -/
def amendedErrorShape (v : JsValue) : Bool :=
  (match getField v "status" with | .num n => n != 0 && !(n == 200) | _ => false) &&
  (match getField v "message" with | .str _ => true | _ => false) &&
  (match getField v "stack" with | .str _ => true | _ => false)

/-- The not-found predicate exactly as the specification words it: the
message contains "404" and does not contain the literal text
"Not found. Request". -/
def specNotFoundShape (message : String) : Bool :=
  strContainsSub message "404" && !(strContainsSub message "Not found. Request")

/-- What the `_connected` flag of a poll tick actually tracks: gateway URL
and server identifier truthy, and the forced refresh found the configured
server with its down flag clear. -/
def monitorConnectedSpec (listing : Except String (List ServerInfo))
    (st : SessionState) : Bool :=
  strTruthy st.gatewayUrl && numTruthy st.serverId &&
  (match listing with
   | .error _ => false
   | .ok servers =>
     match servers.find? (fun s => some s.ident == st.serverId) with
     | some server => !server.down
     | none => false)

/-- Claim C1: when the classified response to the first request is a 502
gateway error whose message matches "first provide a quantel isa"
case-insensitively, `sendRaw` performs exactly one reconnect to the ISA,
re-issues the request exactly once, and returns the body of that single
retry (success or a second identical 502 failure) with no further
reconnect and no further retry. -/
theorem c1_reconnect_and_retry_once (oracle : Nat → JsValue)
    (h : shouldReconnectToISA (oracle 0) = true) :
    sendRaw oracle ⟨0, 0⟩ = (oracle 1, ⟨2, 1⟩) := by
  simp [sendRaw, sendRawInner, reconnectToISA, h]

/-- The 502 body the gateway answers with after losing its ISA session. -/
def isaLostBody : JsValue :=
  .obj [("status", .num 502),
        ("message", .str "Please first provide a Quantel ISA connection URL"),
        ("stack", .str "Error at sendRaw")]

/-- A network that answers every request with the 502 ISA-lost body. -/
def isaLostOracle : Nat → JsValue := fun _ => isaLostBody

/-- Witness for C1 at a network that keeps reporting the ISA-lost 502:
the retry happens once and its identical failure is returned. -/
theorem c1_reconnect_and_retry_once_witness :
    shouldReconnectToISA (isaLostOracle 0) = true ∧
      sendRaw isaLostOracle ⟨0, 0⟩ = (isaLostOracle 1, ⟨2, 1⟩) :=
  ⟨by decide, c1_reconnect_and_retry_once isaLostOracle (by decide)⟩

/-- The body on which claim C2 fails: numeric status 0 with string
message and stack. -/
def statusZeroBody : JsValue :=
  .obj [("status", .num 0), ("message", .str "m"), ("stack", .str "s")]

/-- Counterexample to claim C2: a body with numeric status 0 (which is
not 200), a string message and a string stack satisfies the claimed shape
test, yet `_isAnErrorResponse` treats it as a successful payload, because
`test.status` is falsy. -/
theorem c2_shape_iff_counterexample :
    specErrorShape statusZeroBody = true ∧ isAnErrorResponse statusZeroBody = false := by
  decide

/-- Claim C2 as amended: `_isAnErrorResponse` accepts exactly the decoded
bodies carrying a nonzero numeric `status` field different from 200
together with string `message` and `stack` fields; every other decodable
value is treated as a successful payload. -/
theorem c2_error_classifier_shape (v : JsValue) :
    isAnErrorResponse v = amendedErrorShape v := by
  rcases v with _ | _ | b | n | s | elems | fields <;>
    simp [isAnErrorResponse, amendedErrorShape, truthy, typeofStr, hasOwn, getField]
  rcases hs : lookupField fields "status" with _ | u
  · simp
  · rcases u with _ | _ | b | n | t | el | fs <;>
      simp [truthy, typeofStr, jsEqNum]
    rcases hm : lookupField fields "message" with _ | um <;>
      rcases hk : lookupField fields "stack" with _ | uk <;>
        simp [typeofStr]
    · rcases um with _ | _ | _ | _ | t | _ | _ <;>
        rcases uk with _ | _ | _ | _ | t2 | _ | _ <;>
          simp [typeofStr]

/-- The message on which claim C8 and the code disagree: it contains
"404" and does not contain the literal text "Not found. Request", yet the
code, which reads that text as a regular expression whose period matches
any character, still recognises it and so re-throws. -/
def oddNotFoundMessage : String := "404 Not foundX Request"

/-- Counterexample to claim C8: the claim requires this error to degrade
to a `null` result, but `getPort` propagates it unchanged. -/
theorem c8_notfound_counterexample :
    specNotFoundShape oddNotFoundMessage = true ∧
      getPort (Except.error oddNotFoundMessage : Except String Bool)
        = Except.error oddNotFoundMessage :=
  ⟨by decide, by rfl⟩

/-- Claim C8 as amended: a get-by-id operation degrades a thrown error to
a `null` result exactly when the message contains "404" and does not
match "Not found. Request" read as a regular expression in which the
period matches any single character; every other error is propagated
unchanged. -/
theorem c8_notfound_degrade (message : String) :
    getPort (Except.error message : Except String Bool)
      = (if strContainsSub message "404" && !(patOccurs notFoundPattern message)
          then Except.ok none else Except.error message) := by
  unfold getPort isNotFoundAThing
  cases h : strContainsSub message "404" <;> simp [h]

/-- The one-channel server on which claim C4 fails: the only channel is
assigned to port "A" and the server is full. -/
def fullServer : ServerInfo :=
  { ident := 1, down := false, numChannels := some 1,
    portNames := some ["A"], chanPorts := some [some "A"] }

/-- Counterexample to claim C4: monitored port "B" declares channel 0,
which the mapping assigns to the different port "A"; because the server
is also full, the tick records only the no-room conflict and skips the
channel check entirely, so no "channel already assigned" message is
recorded and the two checks are not independent. -/
theorem c4_channel_check_counterexample :
    monitorPortErrors fullServer "B" [0] = [noRoomMessage "B"] ∧
      channelConflictMessage "B" 0 "A" ∉ monitorPortErrors fullServer "B" [0] := by
  decide

/-- Claim C4 as amended: the channel check runs only when the no-room
conflict was not recorded for that monitored port; in that case every
declared channel that the channel-to-port mapping assigns to a non-empty
port name different from the monitored port contributes a "channel
already assigned" conflict message to the poll tick. -/
theorem c4_channel_conflict_recorded (server : ServerInfo)
    (monitorPorts : List (String × List Nat)) (monitorPortId : String)
    (channels : List Nat) (ch : Nat) (owner : String)
    (hmp : (monitorPortId, channels) ∈ monitorPorts)
    (hch : ch ∈ channels)
    (hroom : (!(strTruthy ((server.portNames.getD []).find? fun portName =>
          portName == monitorPortId))
        && (((server.portNames.getD []).filter fun portName => portName != "").length
            == server.numChannels.getD 0)) = false)
    (hmap : ((server.chanPorts.getD []).get? ch).join = some owner)
    (howner : owner ≠ "") (hne : owner ≠ monitorPortId) :
    channelConflictMessage monitorPortId ch owner ∈ serverErrorsOf server monitorPorts := by
  unfold serverErrorsOf
  refine List.mem_flatMap.mpr ⟨(monitorPortId, channels), hmp, ?_⟩
  unfold monitorPortErrors
  simp only [hroom, Bool.false_eq_true, if_false]
  refine List.mem_filterMap.mpr ⟨ch, hch, ?_⟩
  simp only [hmap]
  simp [howner, hne]

/-- The server of the specification example for C4: two channels, one
assigned port name, one free slot, channel 0 owned by "A". -/
def roomyServer : ServerInfo :=
  { ident := 1, down := false, numChannels := some 2,
    portNames := some ["A", ""], chanPorts := some [some "A"] }

/-- Witness for the amended C4: with room left on the server, declaring
port "B" on channel 0 yields the channel-conflict message. -/
theorem c4_channel_conflict_recorded_witness :
    channelConflictMessage "B" 0 "A" ∈ serverErrorsOf roomyServer [("B", [0])] :=
  c4_channel_conflict_recorded roomyServer [("B", [0])] "B" [0] 0 "A"
    (by decide) (by decide) (by decide) (by decide) (by decide) (by decide)

/-- Counterexample to claim C5: a tick starts, `dispose()` clears the
interval, then the promise of the already started tick resolves with a
changed status: the callback fires after `dispose()` has returned. -/
theorem c5_dispose_counterexample :
    callbackAfterDispose monitorStart
      [MonitorEvent.tickFire, MonitorEvent.disposeEv, MonitorEvent.resolve none] = true := by
  decide

/-- Claim C5 as amended: once the interval is cleared no new tick ever
starts, and only ticks already in flight at disposal can still invoke the
callback, each at most once: along any trace from a disposed monitor the
number of callback invocations is bounded by the number of pending
ticks. -/
theorem c5_after_dispose_bounded (s : MonitorState) (events : List MonitorEvent)
    (h : s.intervalActive = false) :
    countCallbacks s events ≤ s.pending := by
  induction events generalizing s with
  | nil => simp [countCallbacks]
  | cons e es ih =>
    cases e with
    | tickFire =>
      simpa [countCallbacks, monitorStep, h] using ih s h
    | resolve computed =>
      cases hp : s.pending with
      | zero =>
        simpa [countCallbacks, monitorStep, hp] using ih s h
      | succ p =>
        have hb := ih { s with pending := p, stored := (applyStatusChange s.stored computed).1 } h
        dsimp only at hb
        simp only [countCallbacks, monitorStep, hp]
        cases hr : (applyStatusChange s.stored computed).2 <;> simp [hr] <;> omega
    | disposeEv =>
      have hb := ih { s with intervalActive := false } rfl
      simpa [countCallbacks, monitorStep] using hb

/-- A monitor whose interval has been cleared while two ticks are still
in flight. -/
def disposedMonitor : MonitorState :=
  { intervalActive := false, stored := some "Initializing...", pending := 2 }

/-- Witness for the amended C5: a disposed monitor with two pending ticks
fires the callback at most twice over any further events. -/
theorem c5_after_dispose_bounded_witness :
    disposedMonitor.intervalActive = false ∧
      countCallbacks disposedMonitor
        [MonitorEvent.resolve none, MonitorEvent.tickFire, MonitorEvent.resolve none]
        ≤ disposedMonitor.pending :=
  ⟨by decide, c5_after_dispose_bounded disposedMonitor
    [MonitorEvent.resolve none, MonitorEvent.tickFire, MonitorEvent.resolve none]
    (by decide)⟩

/-- `getServer` only ever writes the `cachedServer` field of the session
state. -/
theorem getServer_state (dc : Bool) (listing : Except String (List ServerInfo))
    (st : SessionState) :
    (getServer dc listing st).1
      = { st with cachedServer := (getServer dc listing st).1.cachedServer } := by
  unfold getServer
  dsimp only
  cases hc : dc || (st.cachedServer.map ServerInfo.ident != st.serverId) <;>
    simp only [hc, Bool.false_eq_true, if_false, if_true] <;>
    split <;> (try rfl) <;> split <;> (try rfl) <;> split <;> rfl

/-- Existential form of `getServer_state`, convenient for substitution. -/
theorem getServer_shape (dc : Bool) (listing : Except String (List ServerInfo))
    (st : SessionState) :
    ∃ c, (getServer dc listing st).1 = { st with cachedServer := c } :=
  ⟨(getServer dc listing st).1.cachedServer, getServer_state dc listing st⟩

/-- `getServer` never changes the configured server identifier. -/
theorem getServer_serverId (dc : Bool) (listing : Except String (List ServerInfo))
    (st : SessionState) :
    (getServer dc listing st).1.serverId = st.serverId := by
  conv_lhs => rw [getServer_state]

/-- `getServer` never changes the monitored-ports declaration. -/
theorem getServer_monitorPorts (dc : Bool) (listing : Except String (List ServerInfo))
    (st : SessionState) :
    (getServer dc listing st).1.monitorPorts = st.monitorPorts := by
  conv_lhs => rw [getServer_state]

/-- `getServer` never changes the initialization flag. -/
theorem getServer_initialized (dc : Bool) (listing : Except String (List ServerInfo))
    (st : SessionState) :
    (getServer dc listing st).1.initialized = st.initialized := by
  conv_lhs => rw [getServer_state]

/-- `getServer` never changes the stored status message. -/
theorem getServer_statusMessage (dc : Bool) (listing : Except String (List ServerInfo))
    (st : SessionState) :
    (getServer dc listing st).1.statusMessage = st.statusMessage := by
  conv_lhs => rw [getServer_state]

/-- `getServer` never changes the connectivity flag. -/
theorem getServer_connected (dc : Bool) (listing : Except String (List ServerInfo))
    (st : SessionState) :
    (getServer dc listing st).1.connected = st.connected := by
  conv_lhs => rw [getServer_state]

/-- The result component of a forced refresh depends only on the
configured server identifier and the listing. -/
theorem getServer_true_result (listing : Except String (List ServerInfo))
    (st : SessionState) :
    (getServer true listing st).2
      = (if !numTruthy st.serverId then
          .error "QuantelGatewayClient.serverId not set"
        else
          match listing with
          | .error e => .error e
          | .ok servers => .ok (servers.find? fun s => some s.ident == st.serverId)) := by
  unfold getServer
  simp only [Bool.true_or, if_true]
  split <;> (try rfl) <;> split <;> rfl

/-- `getServerStatus` only ever writes the `connected` and `cachedServer`
fields of the session state. -/
theorem getServerStatus_state (listing : Except String (List ServerInfo))
    (st : SessionState) :
    (getServerStatus listing st).1
      = { st with
          connected := (getServerStatus listing st).1.connected,
          cachedServer := (getServerStatus listing st).1.cachedServer } := by
  obtain ⟨c, hc⟩ := getServer_shape true listing { st with connected := false }
  unfold getServerStatus
  dsimp only
  split
  · rfl
  split
  · rfl
  rw [hc]
  split
  · rfl
  · rfl
  · split
    · rfl
    split
    · rfl
    split
    · rfl
    · rfl

/-- `getServerStatus` never changes the stored status message. -/
theorem getServerStatus_statusMessage (listing : Except String (List ServerInfo))
    (st : SessionState) :
    (getServerStatus listing st).1.statusMessage = st.statusMessage := by
  conv_lhs => rw [getServerStatus_state]

/-- `getServerStatus` never changes the gateway address. -/
theorem getServerStatus_gatewayUrl (listing : Except String (List ServerInfo))
    (st : SessionState) :
    (getServerStatus listing st).1.gatewayUrl = st.gatewayUrl := by
  conv_lhs => rw [getServerStatus_state]

/-- `getServerStatus` never changes the server identifier. -/
theorem getServerStatus_serverId (listing : Except String (List ServerInfo))
    (st : SessionState) :
    (getServerStatus listing st).1.serverId = st.serverId := by
  conv_lhs => rw [getServerStatus_state]

/-- `getServerStatus` never changes the initialization flag. -/
theorem getServerStatus_initialized (listing : Except String (List ServerInfo))
    (st : SessionState) :
    (getServerStatus listing st).1.initialized = st.initialized := by
  conv_lhs => rw [getServerStatus_state]

/-- `getServerStatus` never changes the monitored-ports declaration. -/
theorem getServerStatus_monitorPorts (listing : Except String (List ServerInfo))
    (st : SessionState) :
    (getServerStatus listing st).1.monitorPorts = st.monitorPorts := by
  conv_lhs => rw [getServerStatus_state]

/-- The diagnostic a poll tick computes depends only on the gateway
address, the server identifier, the initialization flag and the
monitored-ports declaration (together with the listing): two states
agreeing there compute the same message. -/
theorem getServerStatus_msg_congr (listing : Except String (List ServerInfo))
    (st other : SessionState)
    (h1 : other.gatewayUrl = st.gatewayUrl) (h2 : other.serverId = st.serverId)
    (h3 : other.initialized = st.initialized)
    (h4 : other.monitorPorts = st.monitorPorts) :
    (getServerStatus listing other).2 = (getServerStatus listing st).2 := by
  unfold getServerStatus
  dsimp only
  rw [getServer_true_result, getServer_true_result]
  simp only [getServer_serverId, getServer_initialized, getServer_monitorPorts]
  rw [h1, h2, h3, h4]
  by_cases hg : strTruthy st.gatewayUrl
  · by_cases hs : numTruthy st.serverId
    · rcases listing with e | servers
      · simp [hg, hs]
      · rcases hf : servers.find? (fun s => some s.ident == st.serverId) with _ | srv
        · simp [hg, hs, hf]
        · by_cases hd : srv.down
          · simp [hg, hs, hf, hd]
          · by_cases he : (serverErrorsOf srv st.monitorPorts).length = 0
            · by_cases hi : st.initialized <;> simp [hg, hs, hf, hd, he, hi]
            · simp [hg, hs, hf, hd, he]
    · simp [hg, hs]
  · simp [hg]

/-- The `_connected` flag set by a poll tick is exactly
`monitorConnectedSpec`: gateway URL and server identifier truthy and the
configured server found with its down flag clear. -/
theorem getServerStatus_connected_spec (listing : Except String (List ServerInfo))
    (st : SessionState) :
    (getServerStatus listing st).1.connected = monitorConnectedSpec listing st := by
  unfold getServerStatus monitorConnectedSpec
  dsimp only
  rw [getServer_true_result]
  by_cases hg : strTruthy st.gatewayUrl
  · by_cases hs : numTruthy st.serverId
    · rcases listing with e | servers
      · simp [hg, hs, getServer_connected]
      · rcases hf : servers.find? (fun s => some s.ident == st.serverId) with _ | srv
        · simp [hg, hs, hf, getServer_connected]
        · by_cases hd : srv.down
          · simp [hg, hs, hf, hd, getServer_connected]
          · by_cases he : serverErrorsOf srv st.monitorPorts = []
            · by_cases hi : st.initialized <;>
                simp [hg, hs, hf, hd, he, hi, getServer_monitorPorts, getServer_initialized]
            · simp [hg, hs, hf, hd, he, getServer_monitorPorts, getServer_initialized,
                List.length_eq_zero]
    · simp [hg, hs]
  · simp [hg]

/-- A healthy server record with identifier 1. -/
def serverOne : ServerInfo := { ident := 1, down := false }

/-- A session that is fully configured but not yet marked initialized. -/
def preInitSession : SessionState :=
  { gatewayUrl := some "gw", serverId := some 1 }

/-- Counterexample to claim C3: after a poll tick on a configured but not
yet initialized session, the `connected` accessor reads `true` while the
stored diagnostic is "Not initialized" rather than `null`, so `connected`
does not imply a healthy status and the flag and the message are not
updated together. -/
theorem c3_connected_healthy_counterexample :
    (checkServerStatus (.ok [serverOne]) preInitSession).1.connected = true ∧
      (checkServerStatus (.ok [serverOne]) preInitSession).1.statusMessage
        = some "Not initialized" := by
  decide

/-- Claim C3 as amended: after a poll tick the `connected` flag is true
exactly when the gateway URL and server identifier are truthy and the
forced refresh found the configured server not down; the diagnostic may
nevertheless be non-null (port conflicts, not initialized), and it is
written at a different time than the flag, only on change. -/
theorem c3_connected_characterization (listing : Except String (List ServerInfo))
    (st : SessionState) :
    (checkServerStatus listing st).1.connected = monitorConnectedSpec listing st := by
  have h := getServerStatus_connected_spec listing st
  unfold checkServerStatus
  dsimp only
  split
  · exact h
  · exact h

/-- The stored status message after a tick always equals the message the
tick computed (stored on change, already equal otherwise). -/
theorem checkServerStatus_statusMessage (listing : Except String (List ServerInfo))
    (st : SessionState) :
    (checkServerStatus listing st).1.statusMessage = (getServerStatus listing st).2 := by
  unfold checkServerStatus
  dsimp only
  split
  · rfl
  next h =>
    simp only [bne_iff_ne, ne_eq, not_not] at h
    rw [getServerStatus_statusMessage] at h ⊢
    exact h.symm

/-- A tick never changes the gateway address. -/
theorem checkServerStatus_gatewayUrl (listing : Except String (List ServerInfo))
    (st : SessionState) :
    (checkServerStatus listing st).1.gatewayUrl = st.gatewayUrl := by
  unfold checkServerStatus
  dsimp only
  split
  · exact getServerStatus_gatewayUrl listing st
  · exact getServerStatus_gatewayUrl listing st

/-- A tick never changes the server identifier. -/
theorem checkServerStatus_serverId (listing : Except String (List ServerInfo))
    (st : SessionState) :
    (checkServerStatus listing st).1.serverId = st.serverId := by
  unfold checkServerStatus
  dsimp only
  split
  · exact getServerStatus_serverId listing st
  · exact getServerStatus_serverId listing st

/-- A tick never changes the initialization flag. -/
theorem checkServerStatus_initialized (listing : Except String (List ServerInfo))
    (st : SessionState) :
    (checkServerStatus listing st).1.initialized = st.initialized := by
  unfold checkServerStatus
  dsimp only
  split
  · exact getServerStatus_initialized listing st
  · exact getServerStatus_initialized listing st

/-- A tick never changes the monitored-ports declaration. -/
theorem checkServerStatus_monitorPorts (listing : Except String (List ServerInfo))
    (st : SessionState) :
    (checkServerStatus listing st).1.monitorPorts = st.monitorPorts := by
  unfold checkServerStatus
  dsimp only
  split
  · exact getServerStatus_monitorPorts listing st
  · exact getServerStatus_monitorPorts listing st

/-- Over an unchanged listing, a second tick computes the same message as
the first. -/
theorem checkServerStatus_msg_stable (listing : Except String (List ServerInfo))
    (st : SessionState) :
    (getServerStatus listing (checkServerStatus listing st).1).2
      = (getServerStatus listing st).2 :=
  getServerStatus_msg_congr listing st (checkServerStatus listing st).1
    (checkServerStatus_gatewayUrl listing st) (checkServerStatus_serverId listing st)
    (checkServerStatus_initialized listing st) (checkServerStatus_monitorPorts listing st)

/-- A tick whose computed message equals the stored one invokes no
callback. -/
theorem checkServerStatus_noFire (listing : Except String (List ServerInfo))
    (st : SessionState) (h : (getServerStatus listing st).2 = st.statusMessage) :
    (checkServerStatus listing st).2 = none := by
  unfold checkServerStatus
  dsimp only
  rw [getServerStatus_statusMessage, h]
  simp

/-- Claim C6: the status-change callback is invoked exactly when the
computed diagnostic differs from the stored one, the stored diagnostic is
updated exactly in that case, and an immediately repeated tick over the
same listing (an unchanged degraded reason included) invokes no further
callback. -/
theorem c6_callback_only_on_change (listing : Except String (List ServerInfo))
    (st : SessionState) :
    ((checkServerStatus listing st).2.isSome
        = ((getServerStatus listing st).2 != st.statusMessage))
      ∧ ((checkServerStatus listing st).1.statusMessage
        = (if (getServerStatus listing st).2 != st.statusMessage
            then (getServerStatus listing st).2 else st.statusMessage))
      ∧ (checkServerStatus listing (checkServerStatus listing st).1).2 = none := by
  refine ⟨?_, ?_, ?_⟩
  · unfold checkServerStatus
    dsimp only
    rw [getServerStatus_statusMessage]
    split
    next h => simp [h]
    next h => simp [Bool.not_eq_true] at h; simp [h]
  · rw [checkServerStatus_statusMessage]
    split
    · rfl
    next h =>
      simp only [bne_iff_ne, ne_eq, not_not] at h
      exact h
  · refine checkServerStatus_noFire listing (checkServerStatus listing st).1 ?_
    rw [checkServerStatus_msg_stable listing st, checkServerStatus_statusMessage listing st]

/-- Claim C7: `setServerId` with a truthy identifier that is absent from
the server listing of the zone throws "Server ... not found on ISA!" and
leaves the server cache empty, even when a stale record was cached. -/
theorem c7_setServerId_unknown_fails_cache_empty (n : Int)
    (listing : List ServerInfo) (st : SessionState)
    (hn : n ≠ 0) (habs : ∀ s ∈ listing, s.ident ≠ n) :
    setServerId (some n) (.ok listing) st
      = ({ st with serverId := some n, cachedServer := none },
          .error s!"Server {n} not found on ISA!") := by
  have hfind : listing.find? (fun s => s.ident == n) = none := by
    rw [List.find?_eq_none]
    intro s hs
    simp [habs s hs]
  unfold setServerId getServer
  dsimp only
  simp [numTruthy, hn, hfind, serverIdText]
  rfl

/-- A server record whose identifier is 1, cached stale in C7's witness. -/
def otherServer : ServerInfo := { ident := 1, down := false }

/-- A session still caching `otherServer`. -/
def staleSession : SessionState := { cachedServer := some otherServer }

/-- Witness for C7: switching the stale session to the unknown server 2
fails and empties the cache. -/
theorem c7_setServerId_unknown_fails_cache_empty_witness :
    (2 : Int) ≠ 0 ∧ (∀ s ∈ [otherServer], s.ident ≠ 2) ∧
      setServerId (some 2) (.ok [otherServer]) staleSession
        = ({ staleSession with serverId := some 2, cachedServer := none },
            .error "Server 2 not found on ISA!") :=
  ⟨by decide, by decide,
    c7_setServerId_unknown_fails_cache_empty 2 [otherServer] staleSession
      (by decide) (by decide)⟩

/-- Claim C9: `setServerId(0)` stores the identifier and succeeds with no
validation against the server listing (the result is the same for any
listing, including a failing one), while a server-scoped dispatch on the
resulting session fails fast with "serverId not set" and a monitor tick
reports the server-identifier-unset diagnostic, because the identifier is
tested for truthiness rather than for being undefined. -/
theorem c9_serverId_zero (listing : Except String (List ServerInfo))
    (st : SessionState) (resource : String)
    (hgw : strTruthy st.gatewayUrl = true) :
    (setServerId (some 0) listing st = ({ st with serverId := some 0 }, .ok ()))
      ∧ (sendServer { st with serverId := some 0 } resource
          = .error "QuantelClient.serverId not set")
      ∧ ((getServerStatus listing { st with serverId := some 0 }).2
          = some "QuantelGatewayClient.serverId not set") := by
  refine ⟨?_, ?_, ?_⟩
  · simp [setServerId, numTruthy]
  · simp [sendServer, numTruthy]
  · unfold getServerStatus
    dsimp only
    simp [numTruthy, hgw]

/-- A session whose gateway address is set. -/
def gwSession : SessionState := { gatewayUrl := some "gw" }

/-- Witness for C9 on a session with a configured gateway address and an
erroring listing. -/
theorem c9_serverId_zero_witness :
    strTruthy gwSession.gatewayUrl = true ∧
      ((setServerId (some 0) (.error "boom") gwSession
          = ({ gwSession with serverId := some 0 }, .ok ()))
        ∧ (sendServer { gwSession with serverId := some 0 } "port/p1"
            = .error "QuantelClient.serverId not set")
        ∧ ((getServerStatus (.error "boom") { gwSession with serverId := some 0 }).2
            = some "QuantelGatewayClient.serverId not set")) :=
  ⟨by decide, c9_serverId_zero (.error "boom") gwSession "port/p1" (by decide)⟩

/-- Does a cache entry carry the configured identifier? (Vacuously true
for an empty cache.) -/
def cacheMatchesId (cache : Option ServerInfo) (serverId : Option Int) : Bool :=
  match cache with
  | some cached => some cached.ident == serverId
  | none => true

/-- Does a returned record carry the configured identifier? (Vacuously
true for errors and for a null result.) -/
def resultMatchesId (result : Except String (Option ServerInfo))
    (serverId : Option Int) : Bool :=
  match result with
  | .ok (some server) => some server.ident == serverId
  | _ => true

/-- Claim C10: `getServer` never changes the configured identifier; after
any completed call the cache is empty or caches a record whose `ident`
equals the configured identifier, and any record the call returns carries
that identifier — never a stale record for a different identifier. -/
theorem c10_cache_matches_serverId (dc : Bool)
    (listing : Except String (List ServerInfo)) (st : SessionState) :
    ((getServer dc listing st).1.serverId = st.serverId)
      ∧ (cacheMatchesId (getServer dc listing st).1.cachedServer st.serverId = true)
      ∧ (resultMatchesId (getServer dc listing st).2 st.serverId = true) := by
  refine ⟨getServer_serverId dc listing st, ?_⟩
  unfold getServer
  dsimp only
  cases hc : dc || (st.cachedServer.map ServerInfo.ident != st.serverId) <;>
    simp only [hc, Bool.false_eq_true, if_false, if_true]
  · rw [Bool.or_eq_false_iff] at hc
    have hbe := hc.2
    rw [bne_eq_false_iff_eq] at hbe
    rcases hsc : st.cachedServer with _ | cached
    · try dsimp only
      split
      · simp [cacheMatchesId, resultMatchesId, hsc]
      · rcases listing with e | servers
        · simp [cacheMatchesId, resultMatchesId, hsc]
        · try dsimp only
          rcases hf : servers.find? (fun s => some s.ident == st.serverId) with _ | srv
          · simp [cacheMatchesId, resultMatchesId, hf]
          · have hp := List.find?_some hf
            simp [cacheMatchesId, resultMatchesId, hf, hp]
    · try dsimp only
      rw [hsc] at hbe
      simp [cacheMatchesId, resultMatchesId, hsc, ← hbe]
  · try dsimp only
    split
    · simp [cacheMatchesId, resultMatchesId]
    · rcases listing with e | servers
      · simp [cacheMatchesId, resultMatchesId]
      · try dsimp only
        rcases hf : servers.find? (fun s => some s.ident == st.serverId) with _ | srv
        · simp [cacheMatchesId, resultMatchesId, hf]
        · have hp := List.find?_some hf
          simp [cacheMatchesId, resultMatchesId, hf, hp]

end QuantelGatewayClient
